import Mathlib

/-!
Verification development for the obeytricewithrice leaderboard backend.

The repository has two near-duplicate variants of the same pipeline:
`server.py` (facade with a Mongo-backed freshness cache) and `api/index.py`
(stateless serverless variant).  Both are embedded below: the shared
normalization cores are defined once and the two variants wrap them with
their respective error-handling policies.

Modelling conventions:
* Usernames are lists of Unicode code points (`Codes := List Nat`) so that
  `sanitize_username` (Python `encode('utf-8', errors='replace')`, which
  replaces unencodable lone surrogates with `?`) is expressible.
* Provider-native numbers are exact rationals; Python `round(x, 2)` is
  modelled as round-half-to-even at two decimal places (`round2`).
* Instants are `Int` epoch seconds (`Time`); ISO-8601 serialisation and
  parsing are inverse bijections and are modelled as the identity.
* Python dictionary access `d.get(k, default)` on parsed JSON is modelled
  by `Option` fields with `Option.getD`; Python truthiness of a possibly
  missing value (empty dict, zero) is folded into the `Option`.
* An outbound HTTP call and body parse is abstracted as an
  `Except Failure body` outcome: `.error` covers timeouts, transport
  errors and parse failures (everything the adapters' generic `except`
  arms catch), `.ok` carries the parsed, shape-correct body.
* Raising an exception is modelled by returning `.error` in
  `Except PyExn _`; FastAPI `HTTPException(code, detail)` is `PyExn.http`.
-/

/-- Unicode code points of a Python `str`. -/
abbrev Codes := List Nat

/-- Message carried by a transport / timeout / parse failure. -/
structure Failure where
  msg : String
deriving DecidableEq, Repr

/-- A raised Python exception visible to the HTTP layer
(`fastapi.HTTPException(status_code, detail)`). -/
inductive PyExn where
  | http (status : Nat) (detail : String)
deriving DecidableEq, Repr

/-- Code points of a Lean string literal (used to build concrete inputs). -/
def strCodes (s : String) : Codes := s.toList.map Char.toNat

/-- Source `sanitize_username`: `username.encode('utf-8', errors='replace')
.decode('utf-8')` replaces each unencodable code point (a lone surrogate)
with `?` (63).  The `except` fallback to `"Unknown"` is unreachable since
`errors='replace'` never raises. -/
def sanitize_username (username : Codes) : Codes :=
  username.map (fun c => if 0xD800 ≤ c ∧ c ≤ 0xDFFF then 63 else c)

/-- Source `mask_username`: sanitize, then keep the first `visible_chars`
code points and append one `*` (42) per remaining code point, capped at 8. -/
def mask_username (username : Codes) (visible_chars : Nat := 2) : Codes :=
  let u := sanitize_username username
  if u.length ≤ visible_chars then u
  else u.take visible_chars ++ List.replicate (min (u.length - visible_chars) 8) 42

/-- Code points of `"Unknown"`, the default display name. -/
def unknownCodes : Codes := strCodes "Unknown"

/-- A UTC wall-clock instant at second precision (Python `datetime`). -/
structure DT where
  year : Nat
  month : Nat
  day : Nat
  hour : Nat
  minute : Nat
  second : Nat
deriving DecidableEq, Repr

/-- Gregorian leap-year test. -/
def isLeap (y : Nat) : Bool := y % 4 = 0 ∧ (y % 100 ≠ 0 ∨ y % 400 = 0)

/-- Number of days in a Gregorian month. -/
def daysInMonth (y m : Nat) : Nat :=
  if m = 2 then (if isLeap y then 29 else 28)
  else if m = 4 ∨ m = 6 ∨ m = 9 ∨ m = 11 then 30
  else 31

/-- Python `dt - timedelta(seconds=1)` on an aware UTC datetime:
borrow through minute, hour, day, month and year. -/
def subOneSecond (t : DT) : DT :=
  if t.second > 0 then { t with second := t.second - 1 }
  else if t.minute > 0 then { t with minute := t.minute - 1, second := 59 }
  else if t.hour > 0 then { t with hour := t.hour - 1, minute := 59, second := 59 }
  else if t.day > 1 then
    { t with day := t.day - 1, hour := 23, minute := 59, second := 59 }
  else if t.month > 1 then
    { t with month := t.month - 1, day := daysInMonth t.year (t.month - 1),
             hour := 23, minute := 59, second := 59 }
  else
    { year := t.year - 1, month := 12, day := 31, hour := 23, minute := 59, second := 59 }

/-- Round a rational to the nearest integer, ties to even
(Python `round` semantics on exact values). -/
def rhe (q : ℚ) : ℤ :=
  if Int.fract q < 1/2 then ⌊q⌋
  else if 1/2 < Int.fract q then ⌊q⌋ + 1
  else if Even ⌊q⌋ then ⌊q⌋ else ⌊q⌋ + 1

/-- Python `round(x, 2)`: half-to-even rounding at two decimal places. -/
def round2 (q : ℚ) : ℚ := (rhe (q * 100) : ℚ) / 100

theorem floor_le_rhe (q : ℚ) : ⌊q⌋ ≤ rhe q := by
  unfold rhe; split_ifs <;> omega

theorem rhe_le_floor_add_one (q : ℚ) : rhe q ≤ ⌊q⌋ + 1 := by
  unfold rhe; split_ifs <;> omega

theorem rhe_mono {q r : ℚ} (h : q ≤ r) : rhe q ≤ rhe r := by
  have hf : ⌊q⌋ ≤ ⌊r⌋ := Int.floor_mono h
  rcases eq_or_lt_of_le hf with heq | hlt
  · have hfr : Int.fract q ≤ Int.fract r := by
      have hq := Int.self_sub_floor q
      have hr := Int.self_sub_floor r
      have : (⌊q⌋ : ℚ) = (⌊r⌋ : ℚ) := by exact_mod_cast heq
      rw [← hq, ← hr, this]
      linarith
    unfold rhe
    rw [← heq]
    split_ifs with h1 h2 h3 h4 h5 h6 h7 h8 h9 <;>
      first
        | omega
        | (exfalso; linarith)
  · calc rhe q ≤ ⌊q⌋ + 1 := rhe_le_floor_add_one q
      _ ≤ ⌊r⌋ := hlt
      _ ≤ rhe r := floor_le_rhe r

theorem round2_mono {q r : ℚ} (h : q ≤ r) : round2 q ≤ round2 r := by
  unfold round2
  have h100 : q * 100 ≤ r * 100 := by nlinarith
  have := rhe_mono h100
  have hc : (rhe (q * 100) : ℚ) ≤ (rhe (r * 100) : ℚ) := by exact_mod_cast this
  linarith

/-- Epoch seconds (a Python aware UTC `datetime` obtained from `now()` or
`fromisoformat`); ISO round-tripping is the identity in this model. -/
abbrev Time := Int

/-- One `(place, amount)` prize-tier entry of a source's static config. -/
structure PrizeTier where
  place : Int
  amount : ℚ
deriving DecidableEq, Repr

/-- One entry of a normalized leaderboard (`users` element). -/
structure NormalizedEntry where
  rank : Int
  username : Codes
  avatar : String
  wagered : ℚ
  prize : ℚ
deriving DecidableEq, Repr

/-- A `countdown_end` value as serialised by the adapters: either a
wall-clock datetime or an epoch instant passed to `fromtimestamp`. -/
inductive CEnd where
  | dt (d : DT)
  | epochS (s : ℚ)
deriving DecidableEq, Repr

/-- The normalized leaderboard response body.  `last_updated` is `none` in
`server.py` adapter output (stamped later by the cache layer) and set by
the `api/index.py` adapters themselves. -/
structure Snapshot where
  site_id : String
  site_name : String
  users : List NormalizedEntry
  prize_pool : ℚ
  currency : String
  prizes : List PrizeTier
  countdown_end : Option CEnd
  status : String
  message : Option String := none
  last_updated : Option Time := none
deriving DecidableEq, Repr

/-- Static prize tiers of the `clash` source (7 tiers). -/
def clashPrizes : List PrizeTier :=
  [⟨1, 380⟩, ⟨2, 160⟩, ⟨3, 80⟩, ⟨4, 50⟩, ⟨5, 15⟩, ⟨6, 10⟩, ⟨7, 5⟩]

/-- Static prize tiers of the `bsite` source. -/
def bsitePrizes : List PrizeTier :=
  [⟨1, 400⟩, ⟨2, 200⟩, ⟨3, 100⟩, ⟨4, 50⟩, ⟨5, 30⟩, ⟨6, 15⟩]

/-- Static prize tiers of the `csbattle` source. -/
def csbattlePrizes : List PrizeTier :=
  [⟨1, 300⟩, ⟨2, 150⟩, ⟨3, 80⟩, ⟨4, 40⟩, ⟨5, 20⟩, ⟨6, 10⟩]

/-- Static prize tiers of the `skinfans` source. -/
def skinfansPrizes : List PrizeTier :=
  [⟨1, 300⟩, ⟨2, 120⟩, ⟨3, 50⟩, ⟨4, 20⟩, ⟨5, 10⟩]

/-- Linear scan over the tier list with early `break`: amount of the first
tier whose `place` matches, else 0. -/
def prizeFor (tiers : List PrizeTier) (place : Int) : ℚ :=
  match tiers.find? (fun p => p.place == place) with
  | some p => p.amount
  | none => 0

/-- Range of epoch seconds accepted by Python `datetime.fromtimestamp`
with `tz=utc` (years 1 to 9999); outside it the call raises and the
adapters' inner `try` turns the countdown into `None`. -/
def validEpochS (s : ℚ) : Bool := -62135596800 ≤ s ∧ s < 253402300800

/-- Assign 1-based positions along a list: `buildIdx g l i` applies `g` to
`i+1, i+2, …` (the Python `enumerate` index plus one) and the elements. -/
def buildIdx {α β : Type} (g : Nat → α → β) : List α → Nat → List β
  | [], _ => []
  | x :: xs, i => g (i + 1) x :: buildIdx g xs (i + 1)

/-- Raw clash entry: provider JSON object with optional fields
(`x.get("name"/"avatar"/"wagered", default)`). -/
structure ClashUser where
  name : Option Codes := none
  avatar : Option String := none
  wagered : Option ℚ := none
deriving DecidableEq, Repr

/-- Sort key `x.get("wagered", 0)` used by `sorted(..., reverse=True)`. -/
def clashKey (u : ClashUser) : ℚ := u.wagered.getD 0

/-- Python `sorted(l, key=key, reverse=True)`: stable descending sort,
realised by insertion sort for the relation `key b ≤ key a`. -/
def sortDescBy {α : Type} (key : α → ℚ) (l : List α) : List α :=
  l.insertionSort (fun a b => key b ≤ key a)

/-- One normalized clash entry at 1-based sort position `r`. -/
def clashEntry (r : Nat) (u : ClashUser) : NormalizedEntry :=
  { rank := (r : ℤ)
    username := mask_username (u.name.getD unknownCodes)
    avatar := u.avatar.getD ""
    wagered := round2 (u.wagered.getD 0)
    prize := prizeFor clashPrizes (r : ℤ) }

/-- Clash `end_of_month` computation: `now.replace(month/day/…)` keeps the
current time of day, then one second is subtracted. -/
def clashCountdownEnd (now : DT) : DT :=
  if now.month = 12 then
    subOneSecond { now with year := now.year + 1, month := 1, day := 1 }
  else
    subOneSecond { now with month := now.month + 1, day := 1 }

/-- Success path of the clash adapter (identical in both variants, up to
the `last_updated` stamp). -/
def clashSuccess (now : DT) (data : List ClashUser) : Snapshot :=
  { site_id := "clash"
    site_name := "Clash.gg"
    users := buildIdx clashEntry ((sortDescBy clashKey data).take 10) 0
    prize_pool := 700
    currency := "gems"
    prizes := clashPrizes
    countdown_end := some (.dt (clashCountdownEnd now))
    status := "active" }

/-- Raw bsite reward row (`r["place"]`, `r["winnings"]` are indexed
directly; a missing key raises into the generic error arm). -/
structure BReward where
  place : Int
  winnings : ℚ
deriving DecidableEq, Repr

/-- Raw bsite wager row with `user.get(...)` defaults. -/
structure BWager where
  rank : Option Int := none
  username : Option Codes := none
  avatar : Option String := none
  wager : Option ℚ := none
deriving DecidableEq, Repr

/-- The `currentEntry` object of a bsite response. -/
structure BCurrentEntry where
  endMs : Option Int := none
  status : Option String := none
deriving DecidableEq, Repr

/-- Parsed bsite response body. -/
structure BBody where
  maintenance : Bool := false
  msg : Option String := none
  error : Bool := false
  wagers : List BWager := []
  leaderboardRewards : List BReward := []
  configValue : Option ℚ := none
  currentEntry : BCurrentEntry := {}
deriving DecidableEq, Repr

/-- Python dict comprehension `{r["place"]: r["winnings"] for r in rs}`
followed by `.get(k, 0)`: the last row for a place wins. -/
def bsitePrizeLookup (rs : List BReward) (k : Int) : ℚ :=
  match rs.reverse.find? (fun r => r.place == k) with
  | some r => r.winnings
  | none => 0

/-- One normalized bsite entry: the provider-supplied `rank` is trusted
verbatim (`user.get("rank", 0)`), the username is used as-is. -/
def bsiteEntry (rewards : List BReward) (u : BWager) : NormalizedEntry :=
  { rank := u.rank.getD 0
    username := u.username.getD unknownCodes
    avatar := u.avatar.getD ""
    wagered := round2 (u.wager.getD 0)
    prize := bsitePrizeLookup rewards (u.rank.getD 0) }

/-- Countdown from `currentEntry["end"]` (epoch milliseconds): guarded by
truthiness, converted by `int(...) / 1000`, and `fromtimestamp` failures
are swallowed. -/
def bsiteCountdown (e : Option Int) : Option CEnd :=
  match e with
  | some n =>
    if n ≠ 0 then
      if validEpochS ((n : ℚ) / 1000) then some (.epochS ((n : ℚ) / 1000)) else none
    else none
  | none => none

/-- Maintenance short-circuit snapshot of the bsite adapter;
`defaultMsg` differs between the two variants. -/
def bsiteMaintenance (data : BBody) (defaultMsg : String) : Snapshot :=
  { site_id := "bsite"
    site_name := "B.site"
    users := []
    prize_pool := 800
    currency := "usd"
    prizes := bsitePrizes
    countdown_end := none
    status := "maintenance"
    message := some (data.msg.getD defaultMsg) }

/-- Success path of the bsite adapter (identical in both variants). -/
def bsiteSuccess (data : BBody) : Snapshot :=
  { site_id := "bsite"
    site_name := "B.site"
    users := (data.wagers.take 10).map (bsiteEntry data.leaderboardRewards)
    prize_pool := data.configValue.getD 800
    currency := "usd"
    prizes := bsitePrizes
    countdown_end := bsiteCountdown data.currentEntry.endMs
    status := data.currentEntry.status.getD "active" }

/-- Raw csbattle entry with `user.get(...)` defaults. -/
structure CsUser where
  username : Option Codes := none
  avatar : Option String := none
  wager : Option ℚ := none
deriving DecidableEq, Repr

/-- Sort key `x.get("wager", 0)`. -/
def csKey (u : CsUser) : ℚ := u.wager.getD 0

/-- One normalized csbattle entry at 1-based sort position `r`:
username sanitized but not masked, static tier lookup. -/
def csEntry (r : Nat) (u : CsUser) : NormalizedEntry :=
  { rank := (r : ℤ)
    username := sanitize_username (u.username.getD unknownCodes)
    avatar := u.avatar.getD ""
    wagered := round2 (u.wager.getD 0)
    prize := prizeFor csbattlePrizes (r : ℤ) }

/-- The publicly displayed csbattle end date: `strptime` of the configured
`end_date` (`"2026-02-18 20:30:00"`), UTC. -/
def csCountdownEnd : Option CEnd := some (.dt ⟨2026, 2, 18, 20, 30, 0⟩)

/-- Success path of the csbattle adapter (identical in both variants). -/
def csSuccess (data : List CsUser) : Snapshot :=
  { site_id := "csbattle"
    site_name := "CSBattle"
    users := buildIdx csEntry ((sortDescBy csKey data).take 10) 0
    prize_pool := 600
    currency := "coins"
    prizes := csbattlePrizes
    countdown_end := csCountdownEnd
    status := "active" }

/-- Nested skinfans user object; `none` also covers a present-but-empty
(falsy) dict, which the code skips. -/
structure SFUser where
  name : Option Codes := none
  avatar : Option String := none
  wagered : Option ℚ := none
deriving DecidableEq, Repr

/-- One element of `race.places`. -/
structure SFPlace where
  payout : Option ℚ := none
  user : Option SFUser := none
deriving DecidableEq, Repr

/-- The `race` object (`race.get(...)` defaults). -/
structure SFRace where
  places : List SFPlace := []
  ends_at : Option Int := none
  payout : Option ℚ := none
  active : Bool := false
deriving DecidableEq, Repr

/-- Resolved `response.data` of a skinfans response
(`data.get("response", {}).get("data", data)`). -/
structure SFData where
  race : Option SFRace := none
deriving DecidableEq, Repr

/-- The skinfans user loop: `enumerate` over the first 10 places; the rank
is the raw position `i + 1`, and a place whose user object is missing or
falsy is skipped without emitting an entry (its rank slot is consumed). -/
def skinfansUsers : List SFPlace → Nat → List NormalizedEntry
  | [], _ => []
  | p :: ps, i =>
    match p.user with
    | some u =>
      { rank := ((i + 1 : Nat) : ℤ)
        username := mask_username (u.name.getD unknownCodes)
        avatar := u.avatar.getD ""
        wagered := round2 (u.wagered.getD 0)
        prize := p.payout.getD 0 } :: skinfansUsers ps (i + 1)
    | none => skinfansUsers ps (i + 1)

/-- Countdown from `race["ends_at"]` (epoch seconds), truthiness-guarded
with swallowed `fromtimestamp` failures. -/
def skinfansCountdown (e : Option Int) : Option CEnd :=
  match e with
  | some n =>
    if n ≠ 0 then
      if validEpochS (n : ℚ) then some (.epochS (n : ℚ)) else none
    else none
  | none => none

/-- Success path of the skinfans adapter (identical in both variants). -/
def sfSuccess (d : SFData) : Snapshot :=
  { site_id := "skinfans"
    site_name := "Skin.fans"
    users := skinfansUsers ((d.race.getD {}).places.take 10) 0
    prize_pool := (d.race.getD {}).payout.getD 500
    currency := "coins"
    prizes := skinfansPrizes
    countdown_end := skinfansCountdown (d.race.getD {}).ends_at
    status := if (d.race.getD {}).active then "active" else "ended" }

namespace Server

/-- Server-variant error snapshot for bsite (fixed generic message). -/
def bsiteErrorSnapshot : Snapshot :=
  { site_id := "bsite"
    site_name := "B.site"
    users := []
    prize_pool := 800
    currency := "usd"
    prizes := bsitePrizes
    countdown_end := none
    status := "error"
    message := some "B.site is temporarily unavailable. Please try again later." }

/-- Server-variant error snapshot for csbattle (`message = str(e)`). -/
def csbattleErrorSnapshot (emsg : String) : Snapshot :=
  { site_id := "csbattle"
    site_name := "CSBattle"
    users := []
    prize_pool := 600
    currency := "coins"
    prizes := csbattlePrizes
    countdown_end := none
    status := "error"
    message := some emsg }

/-- The csbattle `not_configured` short-circuit snapshot. -/
def csbattleNotConfigured : Snapshot :=
  { site_id := "csbattle"
    site_name := "CSBattle"
    users := []
    prize_pool := 600
    currency := "coins"
    prizes := csbattlePrizes
    countdown_end := none
    status := "not_configured"
    message := some "CSBattle API not configured." }

/-- Server-variant error snapshot for skinfans (`message = str(e)`). -/
def skinfansErrorSnapshot (emsg : String) : Snapshot :=
  { site_id := "skinfans"
    site_name := "Skin.fans"
    users := []
    prize_pool := 500
    currency := "coins"
    prizes := skinfansPrizes
    countdown_end := none
    status := "error"
    message := some emsg }

/-- The skinfans `not_configured` short-circuit snapshot. -/
def skinfansNotConfigured : Snapshot :=
  { site_id := "skinfans"
    site_name := "Skin.fans"
    users := []
    prize_pool := 500
    currency := "coins"
    prizes := skinfansPrizes
    countdown_end := none
    status := "not_configured"
    message := some "Skin.fans API not configured." }

/-- `server.py` `fetch_clash_data`: the success path builds the snapshot,
but ANY failure is re-raised as `HTTPException(500, ...)` — this adapter
does raise to its caller. -/
def fetch_clash_data (now : DT) (o : Except Failure (List ClashUser)) :
    Except PyExn Snapshot :=
  match o with
  | .ok data => .ok (clashSuccess now data)
  | .error f => .error (.http 500 ("Failed to fetch Clash.gg data: " ++ f.msg))

/-- `server.py` `fetch_bsite_data`: maintenance short-circuits before the
status check; a non-200 status or a provider error flag raises an
`HTTPException` which the `except HTTPException: raise` arm re-raises;
every other failure becomes the fixed generic error snapshot. -/
def fetch_bsite_data (o : Except Failure (Nat × BBody)) : Except PyExn Snapshot :=
  match o with
  | .error _ => .ok bsiteErrorSnapshot
  | .ok (code, data) =>
    if data.maintenance then
      .ok (bsiteMaintenance data "B.site is currently under maintenance. Please check back later.")
    else if code ≠ 200 then
      .error (.http code ("B.site API error: " ++ toString code))
    else if data.error ∧ ¬ data.maintenance then
      .error (.http 500 "B.site API returned an error")
    else
      .ok (bsiteSuccess data)

/-- `server.py` `fetch_csbattle_data`: `not_configured` short-circuit when
the affiliate id is falsy, otherwise all failures are absorbed into an
error snapshot carrying `str(e)`. -/
def fetch_csbattle_data (affiliate_id : String) (o : Except Failure (List CsUser)) :
    Except PyExn Snapshot :=
  if affiliate_id = "" then .ok csbattleNotConfigured
  else
    match o with
    | .ok data => .ok (csSuccess data)
    | .error f => .ok (csbattleErrorSnapshot f.msg)

/-- `server.py` `fetch_skinfans_data`: `not_configured` short-circuit when
the token is falsy, otherwise all failures are absorbed into an error
snapshot carrying `str(e)`. -/
def fetch_skinfans_data (token : String) (o : Except Failure SFData) :
    Except PyExn Snapshot :=
  if token = "" then .ok skinfansNotConfigured
  else
    match o with
    | .ok d => .ok (sfSuccess d)
    | .error f => .ok (skinfansErrorSnapshot f.msg)

end Server

namespace Api

/-- `api/index.py` `fetch_clash_data`: same success path, but every
failure is absorbed into an error snapshot (`message = str(e)`) with a
fresh `last_updated`; this variant never raises. -/
def fetch_clash_data (now : DT) (nowT : Time) (o : Except Failure (List ClashUser)) :
    Except PyExn Snapshot :=
  match o with
  | .ok data => .ok { clashSuccess now data with last_updated := some nowT }
  | .error f =>
    .ok { site_id := "clash", site_name := "Clash.gg", users := []
          prize_pool := 700, currency := "gems", prizes := clashPrizes
          countdown_end := none, status := "error", message := some f.msg
          last_updated := some nowT }

/-- `api/index.py` `fetch_bsite_data`: maintenance short-circuit, no
status-code or error-flag check, all failures absorbed. -/
def fetch_bsite_data (nowT : Time) (o : Except Failure (Nat × BBody)) :
    Except PyExn Snapshot :=
  match o with
  | .error _ =>
    .ok { site_id := "bsite", site_name := "B.site", users := []
          prize_pool := 800, currency := "usd", prizes := bsitePrizes
          countdown_end := none, status := "error"
          message := some "B.site is temporarily unavailable."
          last_updated := some nowT }
  | .ok (_, data) =>
    if data.maintenance then
      .ok { bsiteMaintenance data "B.site is currently under maintenance." with
            last_updated := some nowT }
    else
      .ok { bsiteSuccess data with last_updated := some nowT }

/-- `api/index.py` `fetch_csbattle_data`: no `not_configured` check, all
failures absorbed into an error snapshot carrying `str(e)`. -/
def fetch_csbattle_data (nowT : Time) (o : Except Failure (List CsUser)) :
    Except PyExn Snapshot :=
  match o with
  | .ok data => .ok { csSuccess data with last_updated := some nowT }
  | .error f =>
    .ok { site_id := "csbattle", site_name := "CSBattle", users := []
          prize_pool := 600, currency := "coins", prizes := csbattlePrizes
          countdown_end := none, status := "error", message := some f.msg
          last_updated := some nowT }

/-- `api/index.py` `fetch_skinfans_data`: no `not_configured` check, all
failures absorbed into an error snapshot carrying `str(e)`. -/
def fetch_skinfans_data (nowT : Time) (o : Except Failure SFData) :
    Except PyExn Snapshot :=
  match o with
  | .ok d => .ok { sfSuccess d with last_updated := some nowT }
  | .error f =>
    .ok { site_id := "skinfans", site_name := "Skin.fans", users := []
          prize_pool := 500, currency := "coins", prizes := skinfansPrizes
          countdown_end := none, status := "error", message := some f.msg
          last_updated := some nowT }

end Api

/-- The valid source ids, in route order (`fetch_functions` keys /
`valid_sites`). -/
def validSites : List String := ["clash", "bsite", "csbattle", "skinfans"]

/-- A persisted cache document: the snapshot payload (which itself carries
a stamped `last_updated`) plus the record-level `last_updated` instant. -/
structure CacheRecord where
  data : Snapshot
  last_updated : Option Time
deriving DecidableEq, Repr

/-- The `leaderboard_cache` collection, keyed by `site_id` (at most one
document per key, maintained by upsert). -/
abbrev Store := List (String × CacheRecord)

/-- Mongo `find_one({"site_id": k})`: first document with the key. -/
def storeFind (st : Store) (k : String) : Option CacheRecord :=
  (st.find? (fun p => p.1 == k)).map (fun p => p.2)

/-- Mongo `update_one({"site_id": k}, {"$set": ...}, upsert=True)`:
replace the first matching document or append a new one. -/
def storeUpsert (st : Store) (k : String) (r : CacheRecord) : Store :=
  match st with
  | [] => [(k, r)]
  | (k', r') :: rest =>
    if k' = k then (k, r) :: rest else (k', r') :: storeUpsert rest k r

/-- Mongo `delete_one({"site_id": k})`: remove the first matching
document, a no-op when absent. -/
def storeDelete (st : Store) (k : String) : Store :=
  match st with
  | [] => []
  | (k', r') :: rest =>
    if k' = k then rest else (k', r') :: storeDelete rest k

/-- Adapter outcomes seen by the facade: what each source's `fetch()`
would return (or raise) if called now. -/
abbrev Fetchers := String → Except PyExn Snapshot

/-- `server.py` `get_cached_or_fetch`.  The Boolean records whether the
live-fetch branch was reached.  A `none` store models MongoDB left
unconfigured (`db is None`): reads are skipped and writes are no-ops.
Freshness: a cached document is served only when it exists, carries a
`last_updated`, and `now - last_updated < 5 minutes`; the served payload
gets its `last_updated` overwritten from the record.  The unknown-site
check happens after the cache probe; on a miss the fetched snapshot is
stamped with `now` and written through. -/
def get_cached_or_fetch (fetchers : Fetchers) (dbOpt : Option Store)
    (now : Time) (site : String) : Bool × Except PyExn (Snapshot × Option Store) :=
  let hit : Option Snapshot :=
    match dbOpt with
    | none => none
    | some st =>
      match storeFind st site with
      | none => none
      | some rec =>
        match rec.last_updated with
        | none => none
        | some lu =>
          if now - lu < 300 then some { rec.data with last_updated := some lu }
          else none
  match hit with
  | some s => (false, .ok (s, dbOpt))
  | none =>
    if site ∈ validSites then
      match fetchers site with
      | .error e => (true, .error e)
      | .ok snap =>
        let stamped := { snap with last_updated := some now }
        (true, .ok (stamped,
          dbOpt.map (fun st => storeUpsert st site ⟨stamped, some now⟩)))
    else (false, .error (.http 404 ("Unknown site: " ++ site)))

/-- Rendering of a caught exception (`str(e)`) in the aggregate route. -/
def exnStr : PyExn → String
  | .http code detail => toString code ++ ": " ++ detail

/-- One value of the `/api/leaderboards` response object: a snapshot, or
the per-key failure record `{"site_id": ..., "error": ..., "status": ...}`. -/
inductive LBResult where
  | snap (s : Snapshot)
  | failrec (site_id : String) (error : String) (status : String)
deriving DecidableEq, Repr

/-- The per-site loop of `get_all_leaderboards`: each site's resolution is
wrapped in `try/except`, so a raising resolution becomes a failure record
and the loop continues with the store as it was. -/
def get_all_go (fetchers : Fetchers) (now : Time) :
    List String → Option Store → List (String × LBResult) × Option Store
  | [], db => ([], db)
  | site :: rest, db =>
    match (get_cached_or_fetch fetchers db now site).2 with
    | .ok (s, db') =>
      let t := get_all_go fetchers now rest db'
      ((site, .snap s) :: t.1, t.2)
    | .error e =>
      let t := get_all_go fetchers now rest db
      ((site, .failrec site (exnStr e) "error") :: t.1, t.2)

/-- `server.py` `get_all_leaderboards`: iterate the four sources in order,
isolating per-source failures. -/
def get_all_leaderboards (fetchers : Fetchers) (dbOpt : Option Store)
    (now : Time) : List (String × LBResult) × Option Store :=
  get_all_go fetchers now validSites dbOpt

/-- `server.py` `refresh_leaderboard`: reject unknown sites with a 404
listing the valid ids before touching the cache, then delete the site's
cache document and resolve. -/
def refresh_leaderboard (fetchers : Fetchers) (dbOpt : Option Store)
    (now : Time) (site : String) :
    Bool × Except PyExn (String × Snapshot × Option Store) :=
  if site ∈ validSites then
    let dbOpt' := dbOpt.map (fun st => storeDelete st site)
    match get_cached_or_fetch fetchers dbOpt' now site with
    | (b, .ok (s, db'')) => (b, .ok ("Refreshed " ++ site ++ " leaderboard", s, db''))
    | (b, .error e) => (b, .error e)
  else
    (false, .error (.http 404 "Invalid site. Valid sites: clash, bsite, csbattle, skinfans"))

/-- The rank values of leaderboard entries are strictly increasing
(hence unique) along the list. -/
def ranksStrictMono (l : List NormalizedEntry) : Prop :=
  l.Chain' (fun a b => a.rank < b.rank)

theorem buildIdx_length {α β : Type} (g : Nat → α → β) :
    ∀ (l : List α) (i : Nat), (buildIdx g l i).length = l.length
  | [], _ => rfl
  | _ :: xs, i => by simp [buildIdx, buildIdx_length g xs (i + 1)]

theorem buildIdx_rank_map {α : Type} {g : Nat → α → NormalizedEntry}
    (hg : ∀ r x, (g r x).rank = (r : ℤ)) :
    ∀ (l : List α) (i : Nat),
      (buildIdx g l i).map NormalizedEntry.rank
        = (List.range l.length).map (fun n => ((i + n + 1 : Nat) : ℤ))
  | [], _ => rfl
  | x :: xs, i => by
    simp only [buildIdx, List.map_cons, hg, List.length_cons,
      List.range_succ_eq_map, List.map_map]
    refine congrArg₂ _ (by norm_num) ?_
    rw [buildIdx_rank_map hg xs (i + 1)]
    refine List.map_congr_left (fun a _ => ?_)
    simp only [Function.comp, Nat.succ_eq_add_one]
    push_cast
    omega

theorem buildIdx_rank_gt {α : Type} {g : Nat → α → NormalizedEntry}
    (hg : ∀ r x, (g r x).rank = (r : ℤ)) :
    ∀ (l : List α) (i : Nat), ∀ e ∈ buildIdx g l i, (i : ℤ) < e.rank
  | [], _ => by intro e he; cases he
  | x :: xs, i => by
    intro e he
    rcases List.mem_cons.mp he with rfl | he
    · rw [hg]; exact_mod_cast Nat.lt_succ_self i
    · have := buildIdx_rank_gt hg xs (i + 1) e he
      have hcast : (i : ℤ) < ((i + 1 : Nat) : ℤ) := by exact_mod_cast Nat.lt_succ_self i
      exact lt_trans hcast this

theorem buildIdx_rank_chain' {α : Type} {g : Nat → α → NormalizedEntry}
    (hg : ∀ r x, (g r x).rank = (r : ℤ)) :
    ∀ (l : List α) (i : Nat), ranksStrictMono (buildIdx g l i)
  | [], _ => List.chain'_nil
  | x :: xs, i => by
    rw [ranksStrictMono, buildIdx, List.chain'_cons']
    refine ⟨fun y hy => ?_, buildIdx_rank_chain' hg xs (i + 1)⟩
    have hmem := List.mem_of_mem_head? hy
    have hgt := buildIdx_rank_gt hg xs (i + 1) y hmem
    rw [hg]
    exact_mod_cast hgt

theorem buildIdx_prize {α : Type} {g : Nat → α → NormalizedEntry}
    (tiers : List PrizeTier)
    (hp : ∀ r x, (g r x).prize = prizeFor tiers ((g r x).rank)) :
    ∀ (l : List α) (i : Nat), ∀ e ∈ buildIdx g l i, e.prize = prizeFor tiers e.rank
  | [], _ => by intro e he; cases he
  | x :: xs, i => by
    intro e he
    rcases List.mem_cons.mp he with rfl | he
    · exact hp (i + 1) x
    · exact buildIdx_prize tiers hp xs (i + 1) e he

theorem buildIdx_chain' {α β : Type} {R : α → α → Prop} {S : β → β → Prop}
    {g : Nat → α → β} (hg : ∀ r s x y, R x y → S (g r x) (g s y)) :
    ∀ (l : List α) (i : Nat), l.Chain' R → (buildIdx g l i).Chain' S
  | [], _, _ => List.chain'_nil
  | [x], i, _ => by simp [buildIdx, List.chain'_singleton]
  | x :: y :: t, i, h => by
    rw [List.chain'_cons] at h
    rw [buildIdx, buildIdx, List.chain'_cons]
    exact ⟨hg _ _ _ _ h.1,
      buildIdx_chain' hg (y :: t) (i + 1) h.2⟩

theorem sortDescBy_sorted {α : Type} (key : α → ℚ) (l : List α) :
    (sortDescBy key l).Sorted (fun a b => key b ≤ key a) := by
  unfold sortDescBy
  letI : IsTotal α (fun a b => key b ≤ key a) := ⟨fun a b => le_total (key b) (key a)⟩
  letI : IsTrans α (fun a b => key b ≤ key a) := ⟨fun _ _ _ h1 h2 => le_trans h2 h1⟩
  exact List.sorted_insertionSort _ l

theorem sortDescBy_length {α : Type} (key : α → ℚ) (l : List α) :
    (sortDescBy key l).length = l.length :=
  (List.perm_insertionSort _ l).length_eq

theorem sortDescBy_take_chain' {α : Type} (key : α → ℚ) (l : List α) (n : Nat) :
    ((sortDescBy key l).take n).Chain' (fun a b => key b ≤ key a) :=
  ((sortDescBy_sorted key l).sublist (List.take_sublist n _)).chain'

theorem prizeFor_eq_zero (tiers : List PrizeTier) (r : Int)
    (h : ∀ p ∈ tiers, p.place ≠ r) : prizeFor tiers r = 0 := by
  unfold prizeFor
  rw [List.find?_eq_none.mpr (fun p hp => by simp [h p hp])]

theorem prizeFor_clashPrizes_ge_eight (r : Int) (h : 8 ≤ r) :
    prizeFor clashPrizes r = 0 := by
  refine prizeFor_eq_zero _ _ (fun p hp => ?_)
  simp only [clashPrizes, List.mem_cons, List.not_mem_nil, or_false] at hp
  rcases hp with rfl | rfl | rfl | rfl | rfl | rfl | rfl <;> simp <;> omega

theorem skinfansUsers_rank_gt :
    ∀ (ps : List SFPlace) (i : Nat), ∀ e ∈ skinfansUsers ps i, (i : ℤ) < e.rank
  | [], _ => by intro e he; cases he
  | p :: ps, i => by
    intro e he
    have hstep : (i : ℤ) < ((i + 1 : Nat) : ℤ) := by exact_mod_cast Nat.lt_succ_self i
    match hu : p.user with
    | some u =>
      rw [skinfansUsers, hu] at he
      rcases List.mem_cons.mp he with rfl | he
      · exact hstep
      · exact lt_trans hstep (skinfansUsers_rank_gt ps (i + 1) e he)
    | none =>
      rw [skinfansUsers, hu] at he
      exact lt_trans hstep (skinfansUsers_rank_gt ps (i + 1) e he)

theorem skinfansUsers_rank_le :
    ∀ (ps : List SFPlace) (i : Nat), ∀ e ∈ skinfansUsers ps i,
      e.rank ≤ ((i + ps.length : Nat) : ℤ)
  | [], _ => by intro e he; cases he
  | p :: ps, i => by
    intro e he
    have hmono : ((i + 1 + ps.length : Nat) : ℤ) ≤ ((i + (p :: ps).length : Nat) : ℤ) := by
      simp [List.length_cons]; omega
    match hu : p.user with
    | some u =>
      rw [skinfansUsers, hu] at he
      rcases List.mem_cons.mp he with rfl | he
      · simp [List.length_cons]
      · exact le_trans (skinfansUsers_rank_le ps (i + 1) e he) hmono
    | none =>
      rw [skinfansUsers, hu] at he
      exact le_trans (skinfansUsers_rank_le ps (i + 1) e he) hmono

theorem skinfansUsers_chain' :
    ∀ (ps : List SFPlace) (i : Nat), ranksStrictMono (skinfansUsers ps i)
  | [], _ => List.chain'_nil
  | p :: ps, i => by
    rw [ranksStrictMono, skinfansUsers]
    match p.user with
    | some u =>
      rw [List.chain'_cons']
      refine ⟨fun y hy => ?_, skinfansUsers_chain' ps (i + 1)⟩
      have hmem := List.mem_of_mem_head? hy
      have := skinfansUsers_rank_gt ps (i + 1) y hmem
      exact this
    | none => exact skinfansUsers_chain' ps (i + 1)

theorem skinfansUsers_length :
    ∀ (ps : List SFPlace) (i : Nat),
      (skinfansUsers ps i).length = ps.countP (fun p => p.user.isSome)
  | [], _ => rfl
  | p :: ps, i => by
    rw [List.countP_cons, skinfansUsers]
    match p.user with
    | some u => simp [skinfansUsers_length ps (i + 1)]
    | none => simp [skinfansUsers_length ps (i + 1)]

theorem storeFind_upsert_self (st : Store) (k : String) (r : CacheRecord) :
    storeFind (storeUpsert st k r) k = some r := by
  induction st with
  | nil => simp [storeUpsert, storeFind, List.find?]
  | cons p rest ih =>
    by_cases h : p.1 = k
    · simp [storeUpsert, h, storeFind, List.find?]
    · cases p with
      | mk k' r' =>
        simp only at h
        simp only [storeUpsert, if_neg h]
        rw [storeFind] at ih ⊢
        simp only [List.find?]
        have : (k' == k) = false := by simp [h]
        rw [this]
        exact ih

theorem storeFind_eq_none_of_not_mem (st : Store) (k : String)
    (h : k ∉ st.map Prod.fst) : storeFind st k = none := by
  induction st with
  | nil => rfl
  | cons p rest ih =>
    simp only [List.map_cons, List.mem_cons] at h
    push_neg at h
    rw [storeFind, List.find?]
    have hne : p.1 ≠ k := fun hh => h.1 hh.symm
    have : (p.1 == k) = false := by simp [hne]
    rw [this]
    exact ih h.2

theorem storeFind_delete_self (st : Store) (k : String)
    (h : (st.map Prod.fst).Nodup) : storeFind (storeDelete st k) k = none := by
  induction st with
  | nil => rfl
  | cons p rest ih =>
    cases p with
    | mk k' r' =>
      simp only [List.map_cons, List.nodup_cons] at h
      by_cases hk : k' = k
      · rw [storeDelete, if_pos hk]
        exact storeFind_eq_none_of_not_mem rest k (hk ▸ h.1)
      · rw [storeDelete, if_neg hk, storeFind, List.find?]
        have : (k' == k) = false := by simp [hk]
        rw [this]
        exact ih h.2

theorem clash_wagered_chain' (data : List ClashUser) :
    (buildIdx clashEntry ((sortDescBy clashKey data).take 10) 0).Chain'
      (fun a b => b.wagered ≤ a.wagered) :=
  buildIdx_chain' (R := fun a b => clashKey b ≤ clashKey a)
    (S := fun a b => b.wagered ≤ a.wagered) (g := clashEntry)
    (fun _ _ _ _ h => round2_mono h) _ 0
    (sortDescBy_take_chain' clashKey data 10)

theorem cs_wagered_chain' (data : List CsUser) :
    (buildIdx csEntry ((sortDescBy csKey data).take 10) 0).Chain'
      (fun a b => b.wagered ≤ a.wagered) :=
  buildIdx_chain' (R := fun a b => csKey b ≤ csKey a)
    (S := fun a b => b.wagered ≤ a.wagered) (g := csEntry)
    (fun _ _ _ _ h => round2_mono h) _ 0
    (sortDescBy_take_chain' csKey data 10)

/-- C4: `mask_username` sanitizes first; a sanitized name of length at
most `visible = 2` is returned unchanged, otherwise the first two code
points are kept and one `*` is appended per remaining code point, capped
at 8.  In particular `mask("Alexander", 2) = "Al*******"` (7 asterisks),
`mask("Al", 2) = "Al"`, and `mask("AVeryLongUsernameHere", 2)` is the
first 2 characters followed by exactly 8 asterisks. -/
theorem claim_C4_masking :
    (∀ name : Codes,
      mask_username name 2 =
        if (sanitize_username name).length ≤ 2 then sanitize_username name
        else (sanitize_username name).take 2
          ++ List.replicate (min ((sanitize_username name).length - 2) 8) 42)
    ∧ mask_username (strCodes "Alexander") 2 = strCodes "Al*******"
    ∧ strCodes "Al*******" = strCodes "Al" ++ List.replicate 7 42
    ∧ mask_username (strCodes "Al") 2 = strCodes "Al"
    ∧ mask_username (strCodes "AVeryLongUsernameHere") 2
        = (strCodes "AVeryLongUsernameHere").take 2 ++ List.replicate 8 42 :=
  ⟨fun _ => rfl, by decide, by decide, by decide, by decide⟩

theorem not_ranksStrictMono_of_dup (l : List NormalizedEntry) (a : Int)
    (h : l.map NormalizedEntry.rank = [a, a]) : ¬ ranksStrictMono l := by
  intro hm
  cases l with
  | nil => simp at h
  | cons e1 t =>
    cases t with
    | nil => simp at h
    | cons e2 t2 =>
      cases t2 with
      | cons e3 t3 => simp at h
      | nil =>
        simp only [List.map_cons, List.map_nil, List.cons.injEq, and_true] at h
        rw [ranksStrictMono, List.chain'_pair, h.1, h.2] at hm
        exact lt_irrefl a hm

/-- Provider-D input of claim C2: three places where the second carries no
user object. -/
def c2Places : List SFPlace :=
  [ { payout := some 300,
      user := some { name := some (strCodes "Alpha"), wagered := some 50 } },
    { payout := some 120, user := none },
    { payout := some 50,
      user := some { name := some (strCodes "Gamma"), wagered := some 20 } } ]

/-- The parsed skinfans body wrapping `c2Places`. -/
def c2Data : SFData := { race := some { places := c2Places, active := true } }

/-- C2 counterexample: on 3 places whose 2nd has no user object, the
skinfans adapter emits 2 users with ranks 1 and 3 — the skipped place DOES
consume a rank slot, so the ranks are not the claimed gap-free 1 and 2. -/
theorem claim_C2_counterexample :
    ∃ s, Server.fetch_skinfans_data "eb46a5130b38ecd87c8a3b3206f2c7ae" (.ok c2Data) = .ok s
      ∧ s.users.length = 2
      ∧ s.users.map NormalizedEntry.rank = [1, 3]
      ∧ s.users.map NormalizedEntry.rank ≠ [1, 2] := by
  refine ⟨sfSuccess c2Data, rfl, by decide, by decide, by decide⟩

/-- C2 amended: a place with a missing user object is skipped but its rank
slot is consumed — rank is the 1-based raw position among the first 10
places, so ranks stay strictly increasing and bounded by the number of
places considered but may have gaps; the emitted-entry count is the number
of places with a user object.  On the 3-place input whose 2nd place has no
user, the snapshot has 2 users with ranks 1 and 3. -/
theorem claim_C2_amended :
    (∀ (token : String) (d : SFData) (s : Snapshot),
      Server.fetch_skinfans_data token (.ok d) = .ok s →
        ranksStrictMono s.users
        ∧ (∀ e ∈ s.users, e.rank ≤ ((((d.race.getD {}).places.take 10).length : Nat) : ℤ))
        ∧ (token ≠ "" →
            s.users.length = ((d.race.getD {}).places.take 10).countP (fun p => p.user.isSome)))
    ∧ (∃ s, Server.fetch_skinfans_data "eb46a5130b38ecd87c8a3b3206f2c7ae" (.ok c2Data) = .ok s
        ∧ s.users.length = 2 ∧ s.users.map NormalizedEntry.rank = [1, 3]) := by
  constructor
  · intro token d s h
    by_cases htok : token = ""
    · rw [Server.fetch_skinfans_data, if_pos htok] at h
      have hs : Server.skinfansNotConfigured = s := by injection h
      subst hs
      refine ⟨List.chain'_nil, ?_, fun hc => absurd htok hc⟩
      intro e he
      cases he
    · rw [Server.fetch_skinfans_data, if_neg htok] at h
      have hs : sfSuccess d = s := by injection h
      subst hs
      refine ⟨skinfansUsers_chain' _ 0, ?_, fun _ => skinfansUsers_length _ 0⟩
      intro e he
      have := skinfansUsers_rank_le ((d.race.getD {}).places.take 10) 0 e he
      simpa using this
  · exact ⟨sfSuccess c2Data, rfl, by decide, by decide⟩

/-- C2 witness: the general part of the amended claim instantiated at the
concrete 3-place input, with every hypothesis discharged. -/
theorem claim_C2_witness :
    ranksStrictMono (sfSuccess c2Data).users
    ∧ (∀ e ∈ (sfSuccess c2Data).users,
        e.rank ≤ ((((c2Data.race.getD {}).places.take 10).length : Nat) : ℤ))
    ∧ ("eb46a5130b38ecd87c8a3b3206f2c7ae" ≠ "" →
        (sfSuccess c2Data).users.length
          = ((c2Data.race.getD {}).places.take 10).countP (fun p => p.user.isSome)) :=
  claim_C2_amended.1 "eb46a5130b38ecd87c8a3b3206f2c7ae" c2Data (sfSuccess c2Data) rfl

theorem clashSuccess_len (now : DT) (data : List ClashUser) :
    (clashSuccess now data).users.length ≤ 10 := by
  show (buildIdx clashEntry ((sortDescBy clashKey data).take 10) 0).length ≤ 10
  rw [buildIdx_length, List.length_take]
  exact min_le_left _ _

theorem clashSuccess_mono (now : DT) (data : List ClashUser) :
    ranksStrictMono (clashSuccess now data).users :=
  buildIdx_rank_chain' (fun _ _ => rfl) _ 0

theorem csSuccess_len (data : List CsUser) : (csSuccess data).users.length ≤ 10 := by
  show (buildIdx csEntry ((sortDescBy csKey data).take 10) 0).length ≤ 10
  rw [buildIdx_length, List.length_take]
  exact min_le_left _ _

theorem csSuccess_mono (data : List CsUser) : ranksStrictMono (csSuccess data).users :=
  buildIdx_rank_chain' (fun _ _ => rfl) _ 0

theorem sfSuccess_len (d : SFData) : (sfSuccess d).users.length ≤ 10 := by
  show (skinfansUsers ((d.race.getD {}).places.take 10) 0).length ≤ 10
  rw [skinfansUsers_length]
  calc ((d.race.getD {}).places.take 10).countP (fun p => p.user.isSome)
      ≤ ((d.race.getD {}).places.take 10).length := List.countP_le_length _
    _ ≤ 10 := by rw [List.length_take]; exact min_le_left _ _

theorem sfSuccess_mono (d : SFData) : ranksStrictMono (sfSuccess d).users :=
  skinfansUsers_chain' _ 0

theorem bsiteSuccess_len (data : BBody) : (bsiteSuccess data).users.length ≤ 10 := by
  show ((data.wagers.take 10).map (bsiteEntry data.leaderboardRewards)).length ≤ 10
  rw [List.length_map, List.length_take]
  exact min_le_left _ _

/-- Bsite input of claim C3: two wager rows both carrying the
provider-supplied rank 5. -/
def c3BBody : BBody :=
  { wagers := [ { rank := some 5, username := some (strCodes "aa"), wager := some 10 },
                { rank := some 5, username := some (strCodes "bb"), wager := some 9 } ] }

/-- C3 counterexample: the bsite adapter copies provider-supplied ranks
verbatim, so a provider response with two rank-5 rows yields a snapshot
whose rank values are neither unique nor increasing. -/
theorem claim_C3_counterexample :
    ∃ s, Server.fetch_bsite_data (.ok (200, c3BBody)) = .ok s
      ∧ s.users.map NormalizedEntry.rank = [5, 5]
      ∧ ¬ (s.users.map NormalizedEntry.rank).Nodup
      ∧ ¬ ranksStrictMono s.users := by
  refine ⟨bsiteSuccess c3BBody, rfl, by decide, by decide,
    not_ranksStrictMono_of_dup _ 5 (by decide)⟩

/-- C3 amended: every adapter output has at most 10 users, and the rank
values are unique and increasing for the clash, csbattle and skinfans
adapters (rank is position-assigned there); the bsite adapter copies
provider-supplied ranks verbatim, so its snapshots carry no rank
uniqueness or monotonicity guarantee. -/
theorem claim_C3_amended :
    (∀ (now : DT) (o : Except Failure (List ClashUser)) (s : Snapshot),
      Server.fetch_clash_data now o = .ok s → s.users.length ≤ 10 ∧ ranksStrictMono s.users)
    ∧ (∀ (o : Except Failure (Nat × BBody)) (s : Snapshot),
      Server.fetch_bsite_data o = .ok s → s.users.length ≤ 10)
    ∧ (∀ (aff : String) (o : Except Failure (List CsUser)) (s : Snapshot),
      Server.fetch_csbattle_data aff o = .ok s → s.users.length ≤ 10 ∧ ranksStrictMono s.users)
    ∧ (∀ (token : String) (o : Except Failure SFData) (s : Snapshot),
      Server.fetch_skinfans_data token o = .ok s → s.users.length ≤ 10 ∧ ranksStrictMono s.users)
    ∧ (∀ (now : DT) (nowT : Time) (o : Except Failure (List ClashUser)) (s : Snapshot),
      Api.fetch_clash_data now nowT o = .ok s → s.users.length ≤ 10 ∧ ranksStrictMono s.users)
    ∧ (∀ (nowT : Time) (o : Except Failure (Nat × BBody)) (s : Snapshot),
      Api.fetch_bsite_data nowT o = .ok s → s.users.length ≤ 10)
    ∧ (∀ (nowT : Time) (o : Except Failure (List CsUser)) (s : Snapshot),
      Api.fetch_csbattle_data nowT o = .ok s → s.users.length ≤ 10 ∧ ranksStrictMono s.users)
    ∧ (∀ (nowT : Time) (o : Except Failure SFData) (s : Snapshot),
      Api.fetch_skinfans_data nowT o = .ok s → s.users.length ≤ 10 ∧ ranksStrictMono s.users) := by
  refine ⟨?_, ?_, ?_, ?_, ?_, ?_, ?_, ?_⟩
  · rintro now (f | data) s h
    · exact Except.noConfusion h
    · injection h with hh
      subst hh
      exact ⟨clashSuccess_len now data, clashSuccess_mono now data⟩
  · rintro (f | ⟨code, data⟩) s h
    · injection h with hh
      subst hh
      exact Nat.zero_le 10
    · rw [Server.fetch_bsite_data] at h
      split_ifs at h with h1 h2 h3
      all_goals
        first
          | exact Except.noConfusion h
          | (injection h with hh; subst hh; first | exact Nat.zero_le 10 | exact bsiteSuccess_len data)
  · rintro aff (f | data) s h
    · rw [Server.fetch_csbattle_data] at h
      split_ifs at h with h1
      all_goals
        injection h with hh
      all_goals
        subst hh
      all_goals
        exact ⟨Nat.zero_le 10, List.chain'_nil⟩
    · rw [Server.fetch_csbattle_data] at h
      split_ifs at h with h1
      · injection h with hh
        subst hh
        exact ⟨Nat.zero_le 10, List.chain'_nil⟩
      · injection h with hh
        subst hh
        exact ⟨csSuccess_len data, csSuccess_mono data⟩
  · rintro token (f | d) s h
    · rw [Server.fetch_skinfans_data] at h
      split_ifs at h with h1
      all_goals
        injection h with hh
      all_goals
        subst hh
      all_goals
        exact ⟨Nat.zero_le 10, List.chain'_nil⟩
    · rw [Server.fetch_skinfans_data] at h
      split_ifs at h with h1
      · injection h with hh
        subst hh
        exact ⟨Nat.zero_le 10, List.chain'_nil⟩
      · injection h with hh
        subst hh
        exact ⟨sfSuccess_len d, sfSuccess_mono d⟩
  · rintro now nowT (f | data) s h
    · injection h with hh
      subst hh
      exact ⟨Nat.zero_le 10, List.chain'_nil⟩
    · injection h with hh
      subst hh
      exact ⟨clashSuccess_len now data, clashSuccess_mono now data⟩
  · rintro nowT (f | ⟨code, data⟩) s h
    · injection h with hh
      subst hh
      exact Nat.zero_le 10
    · rw [Api.fetch_bsite_data] at h
      split_ifs at h with h1
      all_goals
        injection h with hh
      all_goals
        subst hh
      · exact Nat.zero_le 10
      · exact bsiteSuccess_len data
  · rintro nowT (f | data) s h
    · injection h with hh
      subst hh
      exact ⟨Nat.zero_le 10, List.chain'_nil⟩
    · injection h with hh
      subst hh
      exact ⟨csSuccess_len data, csSuccess_mono data⟩
  · rintro nowT (f | d) s h
    · injection h with hh
      subst hh
      exact ⟨Nat.zero_le 10, List.chain'_nil⟩
    · injection h with hh
      subst hh
      exact ⟨sfSuccess_len d, sfSuccess_mono d⟩

/-- C3 witness: the amended invariant applied at concrete inputs for a
server-variant and an api-variant adapter, hypotheses discharged. -/
theorem claim_C3_witness :
    ((bsiteSuccess c3BBody).users.length ≤ 10)
    ∧ ((sfSuccess { race := none }).users.length ≤ 10
        ∧ ranksStrictMono (sfSuccess { race := none }).users) :=
  ⟨claim_C3_amended.2.1 (.ok (200, c3BBody)) (bsiteSuccess c3BBody) rfl,
   claim_C3_amended.2.2.2.1 "tok" (.ok { race := none }) (sfSuccess { race := none }) rfl⟩

/-- C5: on a successful clash fetch the raw entries are sorted descending
by wagered amount, the top 10 are kept, ranks 1..N are assigned by sort
position, and every entry whose rank exceeds the 7 configured tiers gets
prize 0. -/
theorem claim_C5_clash_normalization :
    ∀ (now : DT) (data : List ClashUser), ∃ s,
      Server.fetch_clash_data now (.ok data) = .ok s
      ∧ s.users.length = min 10 data.length
      ∧ s.users.map NormalizedEntry.rank
          = (List.range s.users.length).map (fun n => ((n + 1 : Nat) : ℤ))
      ∧ s.users.Chain' (fun a b => b.wagered ≤ a.wagered)
      ∧ (∀ e ∈ s.users, 8 ≤ e.rank → e.prize = 0) := by
  intro now data
  refine ⟨clashSuccess now data, rfl, ?_, ?_, clash_wagered_chain' data, ?_⟩
  · show (buildIdx clashEntry ((sortDescBy clashKey data).take 10) 0).length = min 10 data.length
    rw [buildIdx_length, List.length_take, sortDescBy_length]
  · have hlen : (clashSuccess now data).users.length
        = ((sortDescBy clashKey data).take 10).length := buildIdx_length _ _ _
    rw [hlen]
    show (buildIdx clashEntry ((sortDescBy clashKey data).take 10) 0).map NormalizedEntry.rank
      = _
    rw [buildIdx_rank_map (fun _ _ => rfl)]
    exact List.map_congr_left (fun a _ => by norm_num)
  · intro e he h8
    have he' : e ∈ buildIdx clashEntry ((sortDescBy clashKey data).take 10) 0 := he
    have hp := buildIdx_prize clashPrizes (fun _ _ => rfl) _ 0 e he'
    rw [hp]
    exact prizeFor_clashPrizes_ge_eight e.rank h8

/-- Fifteen raw clash entries with pairwise distinct wagered amounts. -/
def c5Data : List ClashUser :=
  (List.range 15).map
    (fun n => { name := some (strCodes "User"), wagered := some ((n : ℚ) + 1) })

/-- C5 witness: the clash normalization applied to the 15-entry input. -/
theorem claim_C5_witness :
    ∃ s, Server.fetch_clash_data ⟨2026, 5, 10, 12, 0, 0⟩ (.ok c5Data) = .ok s
      ∧ s.users.length = min 10 c5Data.length
      ∧ s.users.map NormalizedEntry.rank
          = (List.range s.users.length).map (fun n => ((n + 1 : Nat) : ℤ))
      ∧ s.users.Chain' (fun a b => b.wagered ≤ a.wagered)
      ∧ (∀ e ∈ s.users, 8 ≤ e.rank → e.prize = 0) :=
  claim_C5_clash_normalization ⟨2026, 5, 10, 12, 0, 0⟩ c5Data

/-- Spec-side comparator for C6, following the spec's words: the last
instant of the current UTC month at second precision (last day of the
month, 23:59:59). -/
def lastInstantOfMonthSpec (now : DT) : DT :=
  ⟨now.year, now.month, daysInMonth now.year now.month, 23, 59, 59⟩

/-- C6: the code keeps `now`'s time of day when it jumps to the first day
of the next month before subtracting one second, so at 2026-10-12
07:30:00 UTC the clash snapshot's `countdown_end` is 2026-11-01 07:29:59
— inside November — and not the last instant of October
(2026-10-31 23:59:59) that the claim requires. -/
theorem claim_C6_code_bug :
    ∃ s, Server.fetch_clash_data ⟨2026, 10, 12, 7, 30, 0⟩ (.ok []) = .ok s
      ∧ s.countdown_end = some (.dt ⟨2026, 11, 1, 7, 29, 59⟩)
      ∧ lastInstantOfMonthSpec ⟨2026, 10, 12, 7, 30, 0⟩ = ⟨2026, 10, 31, 23, 59, 59⟩
      ∧ s.countdown_end ≠ some (.dt (lastInstantOfMonthSpec ⟨2026, 10, 12, 7, 30, 0⟩)) :=
  ⟨clashSuccess ⟨2026, 10, 12, 7, 30, 0⟩ [], rfl, by decide, by decide, by decide⟩

/-- A computation that completed without raising. -/
def exceptIsOk {ε α : Type} (x : Except ε α) : Prop := ∃ a, x = .ok a

/-- Shape of a complete failure snapshot: error status, empty users, the
source's static prize pool, currency and tiers, and a message present. -/
def errorShape (s : Snapshot) (pool : ℚ) (curr : String) (tiers : List PrizeTier) : Prop :=
  s.status = "error" ∧ s.users = [] ∧ s.prize_pool = pool ∧ s.currency = curr
    ∧ s.prizes = tiers ∧ s.message.isSome = true

/-- C1 counterexample: the `server.py` clash adapter does raise — a
timeout outcome is re-raised to the caller as `HTTPException(500, ...)`
instead of being converted into an error snapshot. -/
theorem claim_C1_counterexample :
    Server.fetch_clash_data ⟨2026, 3, 1, 0, 0, 0⟩ (.error ⟨"timeout"⟩)
      = .error (.http 500 "Failed to fetch Clash.gg data: timeout") := rfl

/-- C1 amended: in the stateless variant (`api/index.py`) all four
adapters never raise and convert every failure outcome into a complete
`status: "error"` snapshot preserving the static prize pool, currency and
tiers.  In the caching variant (`server.py`) the csbattle and skinfans
adapters behave the same way and the bsite adapter absorbs transport
failures, but `fetch_clash_data` re-raises every failure as
`HTTPException(500)` and `fetch_bsite_data` raises an `HTTPException`
when the provider answers with a non-200 status (outside maintenance). -/
theorem claim_C1_amended :
    (∀ (now : DT) (nowT : Time) (o : Except Failure (List ClashUser)),
      exceptIsOk (Api.fetch_clash_data now nowT o))
    ∧ (∀ (now : DT) (nowT : Time) (f : Failure), ∃ s,
      Api.fetch_clash_data now nowT (.error f) = .ok s ∧ errorShape s 700 "gems" clashPrizes)
    ∧ (∀ (nowT : Time) (o : Except Failure (Nat × BBody)),
      exceptIsOk (Api.fetch_bsite_data nowT o))
    ∧ (∀ (nowT : Time) (f : Failure), ∃ s,
      Api.fetch_bsite_data nowT (.error f) = .ok s ∧ errorShape s 800 "usd" bsitePrizes)
    ∧ (∀ (nowT : Time) (o : Except Failure (List CsUser)),
      exceptIsOk (Api.fetch_csbattle_data nowT o))
    ∧ (∀ (nowT : Time) (f : Failure), ∃ s,
      Api.fetch_csbattle_data nowT (.error f) = .ok s ∧ errorShape s 600 "coins" csbattlePrizes)
    ∧ (∀ (nowT : Time) (o : Except Failure SFData),
      exceptIsOk (Api.fetch_skinfans_data nowT o))
    ∧ (∀ (nowT : Time) (f : Failure), ∃ s,
      Api.fetch_skinfans_data nowT (.error f) = .ok s ∧ errorShape s 500 "coins" skinfansPrizes)
    ∧ (∀ (aff : String) (o : Except Failure (List CsUser)),
      exceptIsOk (Server.fetch_csbattle_data aff o))
    ∧ (∀ (aff : String) (f : Failure), aff ≠ "" → ∃ s,
      Server.fetch_csbattle_data aff (.error f) = .ok s ∧ errorShape s 600 "coins" csbattlePrizes)
    ∧ (∀ (token : String) (o : Except Failure SFData),
      exceptIsOk (Server.fetch_skinfans_data token o))
    ∧ (∀ (token : String) (f : Failure), token ≠ "" → ∃ s,
      Server.fetch_skinfans_data token (.error f) = .ok s ∧ errorShape s 500 "coins" skinfansPrizes)
    ∧ (∀ (f : Failure), ∃ s,
      Server.fetch_bsite_data (.error f) = .ok s ∧ errorShape s 800 "usd" bsitePrizes)
    ∧ (∀ (now : DT) (f : Failure),
      Server.fetch_clash_data now (.error f)
        = .error (.http 500 ("Failed to fetch Clash.gg data: " ++ f.msg)))
    ∧ (∀ (code : Nat) (data : BBody), ¬ data.maintenance = true → code ≠ 200 →
      Server.fetch_bsite_data (.ok (code, data))
        = .error (.http code ("B.site API error: " ++ toString code)))
    ∧ (∀ (data : BBody), ¬ data.maintenance = true → data.error = true →
      Server.fetch_bsite_data (.ok (200, data))
        = .error (.http 500 "B.site API returned an error")) := by
  refine ⟨?_, ?_, ?_, ?_, ?_, ?_, ?_, ?_, ?_, ?_, ?_, ?_, ?_, ?_, ?_, ?_⟩
  · rintro now nowT (f | data) <;> exact ⟨_, rfl⟩
  · intro now nowT f
    exact ⟨_, rfl, rfl, rfl, rfl, rfl, rfl, rfl⟩
  · rintro nowT (f | ⟨code, data⟩)
    · exact ⟨_, rfl⟩
    · rw [Api.fetch_bsite_data]
      split_ifs <;> exact ⟨_, rfl⟩
  · intro nowT f
    exact ⟨_, rfl, rfl, rfl, rfl, rfl, rfl, rfl⟩
  · rintro nowT (f | data) <;> exact ⟨_, rfl⟩
  · intro nowT f
    exact ⟨_, rfl, rfl, rfl, rfl, rfl, rfl, rfl⟩
  · rintro nowT (f | d) <;> exact ⟨_, rfl⟩
  · intro nowT f
    exact ⟨_, rfl, rfl, rfl, rfl, rfl, rfl, rfl⟩
  · rintro aff (f | data)
    · rw [Server.fetch_csbattle_data]
      split_ifs <;> exact ⟨_, rfl⟩
    · rw [Server.fetch_csbattle_data]
      split_ifs <;> exact ⟨_, rfl⟩
  · intro aff f haff
    rw [Server.fetch_csbattle_data, if_neg haff]
    exact ⟨_, rfl, rfl, rfl, rfl, rfl, rfl, rfl⟩
  · rintro token (f | d)
    · rw [Server.fetch_skinfans_data]
      split_ifs <;> exact ⟨_, rfl⟩
    · rw [Server.fetch_skinfans_data]
      split_ifs <;> exact ⟨_, rfl⟩
  · intro token f htok
    rw [Server.fetch_skinfans_data, if_neg htok]
    exact ⟨_, rfl, rfl, rfl, rfl, rfl, rfl, rfl⟩
  · intro f
    exact ⟨_, rfl, rfl, rfl, rfl, rfl, rfl, rfl⟩
  · intro now f
    rfl
  · intro code data hm hc
    rw [Server.fetch_bsite_data, if_neg hm, if_pos hc]
  · intro data hm herr
    rw [Server.fetch_bsite_data, if_neg hm, if_neg (fun hh : (200 : Nat) ≠ 200 => hh rfl),
      if_pos ⟨herr, hm⟩]

/-- C1 witness: the hypothesis-carrying parts of the amended claim,
applied at concrete inputs with every hypothesis discharged. -/
theorem claim_C1_witness :
    (∃ s, Server.fetch_csbattle_data "361eff9a-d63b-4f19-9b31-883c960c020d"
        (.error ⟨"timeout"⟩) = .ok s ∧ errorShape s 600 "coins" csbattlePrizes)
    ∧ (∃ s, Server.fetch_skinfans_data "eb46a5130b38ecd87c8a3b3206f2c7ae"
        (.error ⟨"timeout"⟩) = .ok s ∧ errorShape s 500 "coins" skinfansPrizes)
    ∧ Server.fetch_bsite_data (.ok (503, {}))
        = .error (.http 503 ("B.site API error: " ++ toString 503))
    ∧ Server.fetch_bsite_data (.ok (200, { error := true }))
        = .error (.http 500 "B.site API returned an error") := by
  obtain ⟨-, -, -, -, -, -, -, -, -, hcs, -, hsf, -, -, hb, hb2⟩ := claim_C1_amended
  exact ⟨hcs _ _ (by decide), hsf _ _ (by decide), hb 503 {} (by decide) (by decide),
    hb2 { error := true } (by decide) rfl⟩

theorem get_all_go_keys (F : Fetchers) (now : Time) :
    ∀ (l : List String) (db : Option Store),
      (get_all_go F now l db).1.map Prod.fst = l
  | [], _ => rfl
  | site :: rest, db => by
    rw [get_all_go]
    cases h : (get_cached_or_fetch F db now site).2 with
    | ok p => simp [get_all_go_keys F now rest p.2]
    | error e => simp [get_all_go_keys F now rest db]

theorem get_all_go_shape (F : Fetchers) (now : Time) :
    ∀ (l : List String) (db : Option Store),
      ∀ p ∈ (get_all_go F now l db).1,
        (∃ s, p.2 = LBResult.snap s) ∨ ∃ m, p.2 = .failrec p.1 m "error"
  | [], _ => by intro p hp; cases hp
  | site :: rest, db => by
    intro p hp
    rw [get_all_go] at hp
    cases h : (get_cached_or_fetch F db now site).2 with
    | ok q =>
      rw [h] at hp
      rcases List.mem_cons.mp hp with rfl | hp
      · exact Or.inl ⟨q.1, rfl⟩
      · exact get_all_go_shape F now rest q.2 p hp
    | error e =>
      rw [h] at hp
      rcases List.mem_cons.mp hp with rfl | hp
      · exact Or.inr ⟨exnStr e, rfl⟩
      · exact get_all_go_shape F now rest db p hp

theorem resolve_cacheless (F : Fetchers) (now : Time) (site : String)
    (h : site ∈ validSites) :
    get_cached_or_fetch F none now site
      = (true, match F site with
               | .ok snap => .ok ({ snap with last_updated := some now }, none)
               | .error e => .error e) := by
  rw [get_cached_or_fetch]
  simp only [if_pos h]
  cases F site <;> rfl

theorem get_all_go_cacheless (F : Fetchers) (now : Time) :
    ∀ (l : List String), (∀ s ∈ l, s ∈ validSites) →
      (get_all_go F now l none).1
        = l.map (fun site =>
            (site, match F site with
                   | .ok s => LBResult.snap { s with last_updated := some now }
                   | .error e => .failrec site (exnStr e) "error"))
  | [], _ => rfl
  | site :: rest, hl => by
    have hmem : site ∈ validSites := hl site (List.mem_cons_self site rest)
    have hrest : ∀ s ∈ rest, s ∈ validSites := fun s hs => hl s (List.mem_cons_of_mem _ hs)
    rw [get_all_go, resolve_cacheless F now site hmem, List.map_cons]
    cases hF : F site with
    | ok snap => simp [hF, get_all_go_cacheless F now rest hrest]
    | error e => simp [hF, get_all_go_cacheless F now rest hrest]

/-- C7: for a known source the facade serves the cached snapshot exactly
when a record exists with `now - last_updated < 5 min`, overwriting the
payload's `last_updated` from the record and leaving the store untouched;
on a missing or stale record it fetches, stamps the snapshot with `now`,
upserts and returns it; with the store unconfigured every read misses,
every write is a no-op, and resolution still works. -/
theorem claim_C7_cache_resolve :
    ∀ (F : Fetchers) (st : Store) (rec : CacheRecord) (lu now : Time)
      (site : String) (snap : Snapshot),
      (storeFind st site = some rec → rec.last_updated = some lu → now - lu < 300 →
        get_cached_or_fetch F (some st) now site
          = (false, .ok ({ rec.data with last_updated := some lu }, some st)))
      ∧ (site ∈ validSites → storeFind st site = none → F site = .ok snap →
        get_cached_or_fetch F (some st) now site
          = (true, .ok ({ snap with last_updated := some now },
              some (storeUpsert st site ⟨{ snap with last_updated := some now }, some now⟩))))
      ∧ (site ∈ validSites → storeFind st site = some rec → rec.last_updated = some lu →
          ¬ now - lu < 300 → F site = .ok snap →
        get_cached_or_fetch F (some st) now site
          = (true, .ok ({ snap with last_updated := some now },
              some (storeUpsert st site ⟨{ snap with last_updated := some now }, some now⟩))))
      ∧ (site ∈ validSites → F site = .ok snap →
        get_cached_or_fetch F none now site
          = (true, .ok ({ snap with last_updated := some now }, none))) := by
  intro F st rec lu now site snap
  refine ⟨?_, ?_, ?_, ?_⟩
  · intro hfind hlu hfresh
    rw [get_cached_or_fetch]
    simp only [hfind, hlu, if_pos hfresh]
  · intro hmem hfind hF
    rw [get_cached_or_fetch]
    simp only [hfind, if_pos hmem, hF, Option.map]
  · intro hmem hfind hlu hstale hF
    rw [get_cached_or_fetch]
    simp only [hfind, hlu, if_neg hstale, if_pos hmem, hF, Option.map]
  · intro hmem hF
    rw [get_cached_or_fetch]
    simp only [if_pos hmem, hF, Option.map]

/-- A minimal active snapshot used to exercise the cache facade. -/
def c7Snap : Snapshot :=
  { site_id := "clash", site_name := "Clash.gg", users := [], prize_pool := 700
    currency := "gems", prizes := clashPrizes, countdown_end := none, status := "active" }

/-- A cache record holding `c7Snap`, written at instant 100. -/
def c7Rec : CacheRecord := ⟨{ c7Snap with last_updated := some 100 }, some 100⟩

/-- C7 witness: hit, miss, stale and cacheless branches at concrete
inputs, all hypotheses discharged. -/
theorem claim_C7_witness :
    (get_cached_or_fetch (fun _ => .ok c7Snap) (some [("clash", c7Rec)]) 200 "clash"
      = (false, .ok ({ c7Rec.data with last_updated := some 100 }, some [("clash", c7Rec)])))
    ∧ (get_cached_or_fetch (fun _ => .ok c7Snap) (some []) 200 "clash"
      = (true, .ok ({ c7Snap with last_updated := some 200 },
          some (storeUpsert [] "clash" ⟨{ c7Snap with last_updated := some 200 }, some 200⟩))))
    ∧ (get_cached_or_fetch (fun _ => .ok c7Snap) (some [("clash", c7Rec)]) 900 "clash"
      = (true, .ok ({ c7Snap with last_updated := some 900 },
          some (storeUpsert [("clash", c7Rec)] "clash"
            ⟨{ c7Snap with last_updated := some 900 }, some 900⟩))))
    ∧ (get_cached_or_fetch (fun _ => .ok c7Snap) none 200 "clash"
      = (true, .ok ({ c7Snap with last_updated := some 200 }, none))) := by
  refine ⟨?_, ?_, ?_, ?_⟩
  · exact (claim_C7_cache_resolve (fun _ => .ok c7Snap) [("clash", c7Rec)] c7Rec 100 200
      "clash" c7Snap).1 (by decide) (by decide) (by decide)
  · exact (claim_C7_cache_resolve (fun _ => .ok c7Snap) [] c7Rec 100 200
      "clash" c7Snap).2.1 (by decide) (by decide) rfl
  · exact (claim_C7_cache_resolve (fun _ => .ok c7Snap) [("clash", c7Rec)] c7Rec 100 900
      "clash" c7Snap).2.2.1 (by decide) (by decide) (by decide) (by decide) rfl
  · exact (claim_C7_cache_resolve (fun _ => .ok c7Snap) [] c7Rec 100 200
      "clash" c7Snap).2.2.2 (by decide) rfl

theorem resolve_after_delete (F : Fetchers) (now : Time) (site : String)
    (hmem : site ∈ validSites) (db2 : Option Store)
    (hfind : ∀ st, db2 = some st → storeFind st site = none) :
    get_cached_or_fetch F db2 now site
      = (true, match F site with
               | .ok snap => .ok ({ snap with last_updated := some now },
                   db2.map (fun st =>
                     storeUpsert st site ⟨{ snap with last_updated := some now }, some now⟩))
               | .error e => .error e) := by
  cases db2 with
  | none =>
    rw [get_cached_or_fetch]
    simp only [if_pos hmem]
    cases F site <;> rfl
  | some st =>
    rw [get_cached_or_fetch, hfind st rfl]
    simp only [if_pos hmem]
    cases F site <;> rfl

/-- C8: `refresh_leaderboard` rejects an unknown source with the 404
listing the valid ids, without reading or writing the cache (its result
does not depend on the store); for a known source it deletes the cache
record first, so the live-fetch branch is always taken — even when the
store holds a fresh record — and on adapter success it returns the
freshly stamped snapshot with the delete-then-upsert store.  The
`Nodup` hypothesis is the per-key uniqueness the document store's upsert
maintains. -/
theorem claim_C8_force_refresh :
    ∀ (F : Fetchers) (dbOpt : Option Store) (now : Time) (site : String),
      (site ∉ validSites →
        refresh_leaderboard F dbOpt now site
          = (false, .error (.http 404 "Invalid site. Valid sites: clash, bsite, csbattle, skinfans"))
        ∧ ∀ dbOpt2, refresh_leaderboard F dbOpt2 now site = refresh_leaderboard F dbOpt now site)
      ∧ (site ∈ validSites →
         (∀ st, dbOpt = some st → (st.map Prod.fst).Nodup) →
          (refresh_leaderboard F dbOpt now site).1 = true
          ∧ ∀ snap, F site = .ok snap →
              refresh_leaderboard F dbOpt now site
                = (true, .ok ("Refreshed " ++ site ++ " leaderboard",
                    { snap with last_updated := some now },
                    dbOpt.map (fun st => storeUpsert (storeDelete st site) site
                      ⟨{ snap with last_updated := some now }, some now⟩)))) := by
  intro F dbOpt now site
  constructor
  · intro hmem
    constructor
    · rw [refresh_leaderboard, if_neg hmem]
    · intro dbOpt2
      rw [refresh_leaderboard, if_neg hmem, refresh_leaderboard, if_neg hmem]
  · intro hmem hnd
    have key : get_cached_or_fetch F (dbOpt.map (fun st => storeDelete st site)) now site
        = (true, match F site with
                 | .ok snap => .ok ({ snap with last_updated := some now },
                     (dbOpt.map (fun st => storeDelete st site)).map
                       (fun st =>
                         storeUpsert st site ⟨{ snap with last_updated := some now }, some now⟩))
                 | .error e => .error e) := by
      apply resolve_after_delete F now site hmem
      intro st2 hst2
      cases dbOpt with
      | none => exact Option.noConfusion hst2
      | some st =>
        have hdel : storeDelete st site = st2 := by injection hst2
        subst hdel
        exact storeFind_delete_self st site (hnd st rfl)
    constructor
    · simp only [refresh_leaderboard, if_pos hmem, key]
      cases F site <;> rfl
    · intro snap hF
      simp only [refresh_leaderboard, if_pos hmem, key, hF]
      cases dbOpt <;> rfl

/-- Concrete inputs for the C8 witness: a fresh record for `clash`
written at instant 100, refreshed at instant 101. -/
def c8Rec : CacheRecord :=
  ⟨{ site_id := "clash", site_name := "Clash.gg", users := [], prize_pool := 700
     currency := "gems", prizes := clashPrizes, countdown_end := none
     status := "active", last_updated := some 100 }, some 100⟩

/-- Fresh snapshot the adapter would return during the C8 refresh. -/
def c8Snap : Snapshot :=
  { site_id := "clash", site_name := "Clash.gg", users := [], prize_pool := 700
    currency := "gems", prizes := clashPrizes, countdown_end := none, status := "active" }

/-- C8 witness: an unknown source is rejected with the 404 regardless of
the store, and a refresh of `clash` immediately after a fresh write at
instant 100 still takes the live-fetch branch. -/
theorem claim_C8_witness :
    (refresh_leaderboard (fun _ => .ok c8Snap) (some [("clash", c8Rec)]) 101 "nope"
      = (false, .error (.http 404 "Invalid site. Valid sites: clash, bsite, csbattle, skinfans")))
    ∧ ((refresh_leaderboard (fun _ => .ok c8Snap) (some [("clash", c8Rec)]) 101 "clash").1 = true)
    ∧ (refresh_leaderboard (fun _ => .ok c8Snap) (some [("clash", c8Rec)]) 101 "clash"
      = (true, .ok ("Refreshed clash leaderboard",
          { c8Snap with last_updated := some 101 },
          some (storeUpsert (storeDelete [("clash", c8Rec)] "clash") "clash"
            ⟨{ c8Snap with last_updated := some 101 }, some 101⟩)))) := by
  have hu := (claim_C8_force_refresh (fun _ => .ok c8Snap) (some [("clash", c8Rec)]) 101
    "nope").1 (by decide)
  have hk := (claim_C8_force_refresh (fun _ => .ok c8Snap) (some [("clash", c8Rec)]) 101
    "clash").2 (by decide) (fun st hst => by injection hst with h2; rw [← h2]; decide)
  exact ⟨hu.1, hk.1, hk.2 c8Snap rfl⟩

/-- C9: `get_all_leaderboards` never raises and returns exactly one entry
per known source in order; every entry is either a snapshot or a per-key
`{site_id, error, status: "error"}` record; with the store unconfigured
each source resolves independently to its adapter's outcome, a failing
adapter producing the failure record instead of aborting the aggregate. -/
theorem claim_C9_resolve_all :
    ∀ (F : Fetchers) (dbOpt : Option Store) (now : Time),
      ((get_all_leaderboards F dbOpt now).1.map Prod.fst = validSites)
      ∧ (∀ p ∈ (get_all_leaderboards F dbOpt now).1,
          (∃ s, p.2 = LBResult.snap s) ∨ ∃ m, p.2 = .failrec p.1 m "error")
      ∧ ((get_all_leaderboards F none now).1
          = validSites.map (fun site =>
              (site, match F site with
                     | .ok s => LBResult.snap { s with last_updated := some now }
                     | .error e => .failrec site (exnStr e) "error"))) :=
  fun F dbOpt now =>
    ⟨get_all_go_keys F now validSites dbOpt,
     get_all_go_shape F now validSites dbOpt,
     get_all_go_cacheless F now validSites (fun _ hs => hs)⟩

/-- Snapshot returned by the three healthy adapters in the C9 witness. -/
def c9Snap : Snapshot :=
  { site_id := "x", site_name := "X", users := [], prize_pool := 0
    currency := "usd", prizes := [], countdown_end := none, status := "active" }

/-- Adapter outcomes for the C9 witness: csbattle fails, the rest
succeed. -/
def c9F : Fetchers :=
  fun site => if site = "csbattle" then .error (.http 500 "boom") else .ok c9Snap

/-- C9 witness: with one adapter made to fail, the aggregate still has
all four keys and consists of 3 snapshots and 1 failure record. -/
theorem claim_C9_witness :
    ((get_all_leaderboards c9F none 0).1.map Prod.fst = validSites)
    ∧ ((∃ s, (("csbattle", LBResult.failrec "csbattle" (exnStr (.http 500 "boom")) "error")
          : String × LBResult).2 = LBResult.snap s)
        ∨ ∃ m, (("csbattle", LBResult.failrec "csbattle" (exnStr (.http 500 "boom")) "error")
          : String × LBResult).2 = .failrec "csbattle" m "error")
    ∧ ((get_all_leaderboards c9F none 0).1
        = [("clash", .snap { c9Snap with last_updated := some 0 }),
           ("bsite", .snap { c9Snap with last_updated := some 0 }),
           ("csbattle", .failrec "csbattle" (exnStr (.http 500 "boom")) "error"),
           ("skinfans", .snap { c9Snap with last_updated := some 0 })]) :=
  ⟨(claim_C9_resolve_all c9F none 0).1,
   (claim_C9_resolve_all c9F none 0).2.1
     ("csbattle", LBResult.failrec "csbattle" (exnStr (.http 500 "boom")) "error") (by decide),
   ((claim_C9_resolve_all c9F none 0).2.2).trans (by decide)⟩

/-- C10: after a miss the facade writes whatever snapshot the adapter
returned — error, maintenance or not_configured statuses included — and a
second resolution within the 5-minute window serves that failure snapshot
straight from the cache (live-fetch flag false, adapter outcomes of the
second call irrelevant). -/
theorem claim_C10_failure_snapshot_cached :
    ∀ (F F2 : Fetchers) (st : Store) (now now2 : Time) (site : String) (snap : Snapshot),
      site ∈ validSites →
      storeFind st site = none →
      F site = .ok snap →
      (snap.status = "error" ∨ snap.status = "maintenance" ∨ snap.status = "not_configured") →
      get_cached_or_fetch F (some st) now site
        = (true, .ok ({ snap with last_updated := some now },
            some (storeUpsert st site ⟨{ snap with last_updated := some now }, some now⟩)))
      ∧ (now2 - now < 300 →
        get_cached_or_fetch F2
            (some (storeUpsert st site ⟨{ snap with last_updated := some now }, some now⟩))
            now2 site
          = (false, .ok ({ snap with last_updated := some now },
              some (storeUpsert st site ⟨{ snap with last_updated := some now }, some now⟩)))) := by
  intro F F2 st now now2 site snap hmem hfind hF hstatus
  constructor
  · rw [get_cached_or_fetch]
    simp only [hfind, if_pos hmem, hF, Option.map]
  · intro hfresh
    rw [get_cached_or_fetch]
    simp only [storeFind_upsert_self, if_pos hfresh]

/-- The failure snapshot cached in the C10 witness. -/
def c10Snap : Snapshot :=
  { site_id := "bsite", site_name := "B.site", users := [], prize_pool := 800
    currency := "usd", prizes := bsitePrizes, countdown_end := none
    status := "error", message := some "down" }

/-- C10 witness: an error snapshot written at instant 1000 is served from
the cache at instant 1200 without touching the (now failing) adapter. -/
theorem claim_C10_witness :
    (get_cached_or_fetch (fun _ => .ok c10Snap) (some []) 1000 "bsite"
      = (true, .ok ({ c10Snap with last_updated := some 1000 },
          some (storeUpsert [] "bsite" ⟨{ c10Snap with last_updated := some 1000 }, some 1000⟩))))
    ∧ (get_cached_or_fetch (fun _ => .error (.http 500 "adapter should not run"))
          (some (storeUpsert [] "bsite" ⟨{ c10Snap with last_updated := some 1000 }, some 1000⟩))
          1200 "bsite"
      = (false, .ok ({ c10Snap with last_updated := some 1000 },
          some (storeUpsert [] "bsite" ⟨{ c10Snap with last_updated := some 1000 }, some 1000⟩)))) := by
  have h := claim_C10_failure_snapshot_cached (fun _ => .ok c10Snap)
    (fun _ => .error (.http 500 "adapter should not run")) [] 1000 1200 "bsite" c10Snap
    (by decide) (by decide) rfl (Or.inl (by decide))
  exact ⟨h.1, h.2 (by decide)⟩
